import Mathlib

/-!
Verification of the TB-app validation engine (`src/TB.py`).

The engine works on pandas DataFrames.  We embed a DataFrame as a `Table`:
an ordered list of column names together with an ordered list of rows, a row
being an association list from column name to cell value.  A cell value is
missing (`Val.na`, pandas `NaN`), a string, or an integer.

Fallible pandas operations (column access `df[c]` on an absent column raises
`KeyError`; `row[c]` inside `iterrows`/`apply` likewise) are embedded in
`Except String`.  In-place column assignment `df[c] = ...` is embedded as a
functional update (`setColMap` / `setColVals`); where aliasing matters (the
derived-column pipeline mutates the caller's objects) the embedding tracks
the final value of the caller's object explicitly.
-/

deriving instance DecidableEq for Except

/-- Cell values of a table: missing (pandas `NaN`), a string, or an integer. -/
inductive Val where
  | na : Val
  | str : String → Val
  | num : Int → Val
deriving DecidableEq, Repr

/-- A row is an association list from column name to value. -/
abbrev Row := List (String × Val)

/-- Lookup of a cell in a row by column name (first binding wins). -/
def lookupv : Row → String → Option Val
  | [], _ => none
  | (a, b) :: rs, c => if a = c then some b else lookupv rs c

/-- Value of column `c` in row `r`; absent bindings read as missing (`NaN`). -/
def cellv (r : Row) (c : String) : Val := (lookupv r c).getD Val.na

/-- A table: ordered column names plus ordered rows (a pandas DataFrame with
the default `RangeIndex`, so a record's index is its position). -/
structure Table where
  cols : List String
  rows : List Row
deriving DecidableEq, Repr

/-- Write value `v` into column `c` of row `r` (replace the first binding if
the column is present, append it otherwise). -/
def setCell : Row → String → Val → Row
  | [], c, v => [(c, v)]
  | p :: rs, c, v => if p.1 = c then (c, v) :: rs else p :: setCell rs c v

/-- Column assignment `df[c] = df.apply(f)`: per-row values computed by `f`
from the row itself.  Appends `c` to the column list when new. -/
def setColMap (t : Table) (c : String) (f : Row → Val) : Table :=
  { cols := if c ∈ t.cols then t.cols else t.cols ++ [c],
    rows := t.rows.map (fun r => setCell r c (f r)) }

/-- Write the values `vs` into column `c`, row by row; when `vs` is shorter
than the row list the remaining rows get `NaN` (pandas index alignment),
when longer the extra values are dropped. -/
def zipSetCol (c : String) : List Row → List Val → List Row
  | [], _ => []
  | r :: rs, [] => setCell r c Val.na :: zipSetCol c rs []
  | r :: rs, v :: vs => setCell r c v :: zipSetCol c rs vs

/-- Column assignment `df[c] = series` for an explicit value list. -/
def setColVals (t : Table) (c : String) (vs : List Val) : Table :=
  { cols := if c ∈ t.cols then t.cols else t.cols ++ [c],
    rows := zipSetCol c t.rows vs }

/-- Value of column `c` at row index `i` (missing outside the table). -/
def cellIdx (t : Table) (c : String) (i : Nat) : Val :=
  match t.rows.get? i with
  | some r => cellv r c
  | none => Val.na

/-- The sub-table of the rows at the given indices (`df.loc[idxs]`). -/
def subTable (t : Table) (idxs : List Nat) : Table :=
  { cols := t.cols, rows := idxs.filterMap (fun i => t.rows.get? i) }

/-- Indices `i < n` satisfying `p` in ascending order: the shape of every
index-collecting validator loop in the source. -/
def filterIdx (n : Nat) (p : Nat → Bool) : List Nat :=
  (List.range n).filter p

/-- Error message for a pandas `KeyError` on column `c`. -/
def keyErr (c : String) : String := "KeyError: " ++ c

/-- Per-row column access `row[c]` inside `iterrows`/`apply`: a `KeyError`
when the column is absent from the frame. -/
def rowGet (cols : List String) (r : Row) (c : String) : Except String Val :=
  if c ∈ cols then Except.ok (cellv r c) else Except.error (keyErr c)

/-- Python `str(value)` on a cell: `str(nan) = "nan"`; integers print in
decimal. -/
def pyStr : Val → String
  | Val.na => "nan"
  | Val.str s => s
  | Val.num n => toString n

/-- Strip leading and trailing whitespace from a character list. -/
def trimL (l : List Char) : List Char :=
  ((l.dropWhile Char.isWhitespace).reverse.dropWhile Char.isWhitespace).reverse

/-- Split a character list on a separator character (the splitter underlying
`str.split(sep)`): `"a.b" ↦ ["a", "b"]`, keeping empty pieces. -/
def splitOnChar (sep : Char) : List Char → List (List Char)
  | [] => [[]]
  | ch :: rest =>
    let r := splitOnChar sep rest
    if ch = sep then [] :: r
    else
      match r with
      | [] => [[ch]]
      | g :: gs => (ch :: g) :: gs

/-- Split a character list at whitespace, keeping empty pieces. -/
def splitWs : List Char → List (List Char)
  | [] => [[]]
  | ch :: rest =>
    let r := splitWs rest
    if ch.isWhitespace then [] :: r
    else
      match r with
      | [] => [[ch]]
      | g :: gs => (ch :: g) :: gs

/-- Python `name.split()`: split on whitespace, dropping empty pieces. -/
def wsTokens (s : String) : List String :=
  ((splitWs s.data).filter (fun w => w ≠ [])).map String.mk

/-- Python `str.lower()`. -/
def lowerStr (s : String) : String := String.mk (s.data.map Char.toLower)

/-- The numeric value of a non-empty all-digit character list. -/
def digitsVal : List Char → Option Nat
  | [] => none
  | l =>
    if l.all Char.isDigit then
      some (l.foldl (fun a ch => a * 10 + (ch.toNat - 48)) 0)
    else none

/-- A decimal number `m / 10 ^ e`, the exact value of a parsed float.  Kept
unnormalized so that every comparison is plain integer arithmetic. -/
structure Dec10 where
  m : Int
  e : Nat
deriving DecidableEq, Repr

/-- The rational value of a `Dec10`. -/
def dec10toRat (d : Dec10) : ℚ := (d.m : ℚ) / (10 : ℚ) ^ d.e

/-- Python `float(s)` on a string: optional sign, decimal digits with an
optional fractional part, yielding the exact decimal value.  (Exponents,
underscores and the non-finite specials are not modelled; each unmodelled
form makes the numeric range check flag the record, just as the source
does.) -/
def parseDecimal (s : String) : Option Dec10 :=
  let t := trimL s.data
  let sg : Int := if t.head? = some '-' then -1 else 1
  let u := if t.head? = some '-' ∨ t.head? = some '+' then t.tail else t
  match splitOnChar '.' u with
  | [a] => (digitsVal a).map (fun n => (⟨sg * n, 0⟩ : Dec10))
  | [a, b] =>
    if a = [] ∧ b = [] then none
    else
      match (if a = [] then some 0 else digitsVal a),
            (if b = [] then some 0 else digitsVal b) with
      | some n, some f => some ⟨sg * (n * 10 ^ b.length + f), b.length⟩
      | _, _ => none
  | _ => none

/-- Python `float(val)` on a cell, as an exact decimal.  A missing cell
yields `none`: in the source `float(nan)` succeeds but the range comparison
is then false, so the record is flagged either way, which is the only
observable outcome. -/
def pyFloatD : Val → Option Dec10
  | Val.na => none
  | Val.str s => parseDecimal s
  | Val.num n => some ⟨n, 0⟩

/-- Python `float(val)` as a rational number (the specification-level view
of `pyFloatD`). -/
def pyFloat (v : Val) : Option ℚ := (pyFloatD v).map dec10toRat

/-- `lo ≤ d ∧ d ≤ hi` for a decimal `d` and integer bounds, as integer
arithmetic. -/
def inRangeD (d : Dec10) (lo hi : Int) : Bool :=
  decide (lo * 10 ^ d.e ≤ d.m ∧ d.m ≤ hi * 10 ^ d.e)

/-- Date parsing `pd.to_datetime` restricted to the `YYYY-MM-DD` strings the
sheets use, encoded as `y*10000 + m*100 + d`.  Unparseable values yield
`none`; in the source they either raise (caught as a violation) or coerce to
`NaT`, whose comparisons are false — both behaviours are reproduced by
propagating `none`. -/
def parseYMD (s : String) : Option Nat :=
  match splitOnChar '-' s.data with
  | [y, m, d] =>
    match digitsVal y, digitsVal m, digitsVal d with
    | some yn, some mn, some dn =>
      if 1 ≤ mn ∧ mn ≤ 12 ∧ 1 ≤ dn ∧ dn ≤ 31 then
        some (yn * 10000 + mn * 100 + dn)
      else none
    | _, _, _ => none
  | _ => none

/-- Date value of a cell (`pd.to_datetime(val, errors="coerce")`). -/
def parseDate : Val → Option Nat
  | Val.str s => parseYMD s
  | _ => none

/-- `to_datetime(sd) > to_datetime(ed)` with `NaT` comparing false. -/
def dateAfter (sd ed : Val) : Bool :=
  match parseDate sd, parseDate ed with
  | some s, some e => decide (e < s)
  | _, _ => false

/-- A reference mapping built by `load_dropdowns`: association list from a
key cell to the collected value cells (Python builds a `set`; only
membership is ever queried, so a list suffices). -/
def Catalog := List (Val × List Val)

/-- Lookup in a `Catalog` (Python `dict` access / `in` on keys). -/
def lookupVal : Catalog → Val → Option (List Val)
  | [], _ => none
  | (k, vs) :: rest, x => if k = x then some vs else lookupVal rest x

/-- Add one (key, value) pair to a `Catalog`
(`dict.setdefault(k, set()).add(v)`). -/
def addPair : Catalog → Val → Val → Catalog
  | [], k, v => [(k, [v])]
  | (a, vs) :: rest, k, v =>
    if a = k then (a, vs ++ [v]) :: rest else (a, vs) :: addPair rest k v

/-- Build one lookup block: drop rows with a missing cell (`dropna`), then
fold the pairs into the mapping. -/
def buildDict (ps : List (Val × Val)) : Catalog :=
  (ps.filter (fun p => decide (p.1 ≠ Val.na ∧ p.2 ≠ Val.na))).foldl
    (fun d p => addPair d p.1 p.2) []

/-- `load_dropdowns`: the dropdown sheet's first two columns as a row list;
rows `[0,359)` give region → townships, rows `[361,482)` give
variable → allowed values. -/
def load_dropdowns (rows : List (Val × Val)) : Catalog × Catalog :=
  (buildDict (rows.take 359), buildDict ((rows.drop 361).take 121))

/-- `check_state_region`: rows whose region value is not a catalog key
(`~df[column].isin(dict.keys())`); `KeyError` when the column is absent. -/
def check_state_region (t : Table) (d : Catalog) (c : String) :
    Except String (List Nat) :=
  if c ∈ t.cols then
    Except.ok (filterIdx t.rows.length
      (fun i => (lookupVal d (cellIdx t c i)).isNone))
  else Except.error (keyErr c)

/-- `check_township`: per-row loop; a row is collected when its region is
unknown or its township is not under that region.  The loop reads
`row[state_col]`/`row[township_col]`, so a missing column raises only when
the table has rows. -/
def check_township (t : Table) (d : Catalog) (sc tc : String) :
    Except String (List Nat) :=
  if t.rows = [] then Except.ok []
  else if sc ∈ t.cols ∧ tc ∈ t.cols then
    Except.ok (filterIdx t.rows.length (fun i =>
      match lookupVal d (cellIdx t sc i) with
      | some tws => decide (cellIdx t tc i ∉ tws)
      | none => true))
  else Except.error (keyErr (if sc ∈ t.cols then tc else sc))

/-- `check_value_list`: rows whose value is outside the allowed set
(`df[~df[column].isin(allowed_values)]`). -/
def check_value_list (t : Table) (c : String) (allowed : List Val) :
    Except String (List Nat) :=
  if c ∈ t.cols then
    Except.ok (filterIdx t.rows.length
      (fun i => decide (cellIdx t c i ∉ allowed)))
  else Except.error (keyErr c)

/-- `check_date` with the fixed program epoch `2024-01-01` as default lower
bound and the run-time current date (`today`) as default upper bound: a row
is collected when its value does not parse as a date or falls outside the
inclusive range. -/
def check_date (today : Nat) (t : Table) (c : String) :
    Except String (List Nat) :=
  if c ∈ t.cols then
    Except.ok (filterIdx t.rows.length (fun i =>
      match parseDate (cellIdx t c i) with
      | some d => decide (¬ (20240101 ≤ d ∧ d ≤ today))
      | none => true))
  else Except.error (keyErr c)

/-- `check_numeric`: a row is collected when `float(val)` fails (missing and
unparseable values included) or the parsed number lies outside
`[min_val, max_val]`. -/
def check_numeric (t : Table) (c : String) (lo hi : Int) :
    Except String (List Nat) :=
  if c ∈ t.cols then
    Except.ok (filterIdx t.rows.length (fun i =>
      match pyFloatD (cellIdx t c i) with
      | some d => ! inRangeD d lo hi
      | none => true))
  else Except.error (keyErr c)

/-- Female name honorifics of the naming-convention check. -/
def femaleP : List String := ["Ma", "Daw"]

/-- Male name honorifics of the naming-convention check. -/
def maleP : List String := ["Mg", "U", "Ko"]

/-- One row of the naming-convention check: the pair of flags of its two
`if` statements (female prefix with non-female sex; male prefix with
non-male sex).  `str(row[...])` renders a missing cell as `"nan"`; a
non-empty all-whitespace name raises `IndexError` in the source
(`name.split()[0]`). -/
def sexRowFlags (cols : List String) (nameCol sexCol : String) (r : Row) :
    Except String (Bool × Bool) :=
  match rowGet cols r nameCol, rowGet cols r sexCol with
  | Except.ok nv, Except.ok sv =>
    let name := pyStr nv
    let sex := lowerStr (pyStr sv)
    match (if name = "" then some "" else (wsTokens name).head?) with
    | none => Except.error "IndexError: list index out of range"
    | some pfx =>
      Except.ok (decide (pfx ∈ femaleP ∧ sex ∉ ["female", "f"]),
                 decide (pfx ∈ maleP ∧ sex ∉ ["male", "m"]))
  | Except.error e, _ => Except.error e
  | _, Except.error e => Except.error e

/-- The `iterrows` loop of the naming-convention check over the enumerated
rows, appending the row index once per raised flag. -/
def sexLoop (cols : List String) (nameCol sexCol : String) :
    List (Nat × Row) → Except String (List Nat)
  | [] => Except.ok []
  | (i, r) :: rest =>
    match sexRowFlags cols nameCol sexCol r with
    | Except.error e => Except.error e
    | Except.ok fm =>
      match sexLoop cols nameCol sexCol rest with
      | Except.error e => Except.error e
      | Except.ok tail =>
        Except.ok ((if fm.1 then [i] else []) ++ (if fm.2 then [i] else []) ++ tail)

/-- `check_sex_prefix`: the naming-convention validator. -/
def check_sex_prefix (t : Table) (nameCol sexCol : String) :
    Except String (List Nat) :=
  sexLoop t.cols nameCol sexCol t.rows.enum

/-- The tuple of values of the given columns in a row (the `subset` key of
`df.duplicated`). -/
def keyTuple (cols : List String) (r : Row) : List Val :=
  cols.map (fun c => cellv r c)

/-- `check_duplicate`: `df.duplicated(subset=columns, keep=False)` marks
every row whose key tuple occurs in at least two rows. -/
def check_duplicate (t : Table) (cols : List String) :
    Except String (List Nat) :=
  if cols.all (fun c => c ∈ t.cols) then
    let ks := t.rows.map (keyTuple cols)
    Except.ok (filterIdx t.rows.length
      (fun i => decide (2 ≤ ks.countP (fun k => ks.get? i = some k))))
  else Except.error "KeyError: duplicated subset column"

/-- `check_registration_match`: rows of `t` whose value in column `c` does
not occur in column `c` of `ref`. -/
def check_registration_match (t ref : Table) (c : String) :
    Except String (List Nat) :=
  if c ∈ t.cols then
    if c ∈ ref.cols then
      let allowed := ref.rows.map (fun r => cellv r c)
      Except.ok (filterIdx t.rows.length
        (fun i => decide (cellIdx t c i ∉ allowed)))
    else Except.error (keyErr c)
  else Except.error (keyErr c)

/-- `check_service_point`: rows of `t` whose value in column `c` does not
occur in column `rc` of `ref`. -/
def check_service_point (t ref : Table) (c rc : String) :
    Except String (List Nat) :=
  if c ∈ t.cols then
    if rc ∈ ref.cols then
      let allowed := ref.rows.map (fun r => cellv r rc)
      Except.ok (filterIdx t.rows.length
        (fun i => decide (cellIdx t c i ∉ allowed)))
    else Except.error (keyErr rc)
  else Except.error (keyErr c)

/-- The four examination-result columns of the Screening sheet. -/
def examCols : List String :=
  ["Examination results_Sputum", "Examination results_CXR",
   "Examination results_Gene Xpert", "Examination results_Truenet"]

/-- The two `Result` values that count as detected TB. -/
def tbResults : List Val :=
  [Val.str "Clinically diagnosed TB", Val.str "Bact confirmed TB"]

/-- `astype(int)` on a boolean series: 1 for true, 0 for false. -/
def boolInt (b : Bool) : Val := Val.num (if b then 1 else 0)

/-- The per-row `result_check` function of the Screening pipeline: any
lab-positivity (sputum positive, or a positive gene-amplification or
alternate-assay result) makes the record "F" when `Result` claims
bacteriological confirmation and "T" otherwise; with no lab positivity the
record is always "T". -/
def result_check (r : Row) : Val :=
  if cellv r "Examination results_Sputum" = Val.str "Positive" ∨
      cellv r "Examination results_Gene Xpert" ∈
        [Val.str "T", Val.str "TT", Val.str "TI", Val.str "RR"] ∨
      cellv r "Examination results_Truenet" ∈
        [Val.str "VT", Val.str "RR", Val.str "TI"] then
    if cellv r "Result" = Val.str "Bact confirmed TB" then Val.str "F"
    else Val.str "T"
  else Val.str "T"

/-- The duplicate-check key columns of the Screening sheet. -/
def dupKeyCols : List String :=
  ["Service delivery point", "Name", "Age_Year", "Sex", "Screening Date"]

/-- The row list of
`pd.merge(df, ref_patient[["Registration number", "Enrolled Date"]],
on="Registration number", how="left")`: each left row paired with the
`Enrolled Date` of each matching patient row, or with `NaN` when no patient
row matches. -/
def mergeEnrolled (t pat : Table) : List (Row × Val) :=
  t.rows.flatMap (fun r =>
    if pat.rows.filter (fun p => decide (cellv p "Registration number" =
        cellv r "Registration number")) = [] then [(r, Val.na)]
    else (pat.rows.filter (fun p => decide (cellv p "Registration number" =
        cellv r "Registration number"))).map
      (fun p => (r, cellv p "Enrolled Date")))

/-- The `Enrolled Date` the left merge pairs with a screening record whose
registration number is `k`: that of the first matching patient record, or
`NaN` when none matches. -/
def edOfKey (pat : Table) (k : Val) : Val :=
  match (pat.rows.filter
      (fun p => decide (cellv p "Registration number" = k))).head? with
  | some p => cellv p "Enrolled Date"
  | none => Val.na

/-- The `Ongoing TB case check` value of one merged row:
`"Ongoing TB case"` when the screening date parses strictly after the
enrolled date and the enrolled date is not missing, else the empty string. -/
def ongoingFlag (p : Row × Val) : Val :=
  Val.str (if dateAfter (cellv p.1 "Screening Date") p.2 = true ∧ p.2 ≠ Val.na
           then "Ongoing TB case" else "")

/-- Per-row `Presumptive TB referred`: any of the four examination-result
cells non-missing, or a detected-TB `Result`. -/
def presumptiveF (r : Row) : Val :=
  boolInt (decide ((∃ c ∈ examCols, cellv r c ≠ Val.na) ∨
    cellv r "Result" ∈ tbResults))

/-- Per-row `TB Detected`: detected-TB `Result` together with
`Presumptive TB referred` = 1. -/
def tbDetectedF (r : Row) : Val :=
  boolInt (decide (cellv r "Result" ∈ tbResults ∧
    cellv r "Presumptive TB referred" = Val.num 1))

/-- Per-row `Bact confirmed TB`. -/
def bactF (r : Row) : Val :=
  boolInt (decide (cellv r "Result" = Val.str "Bact confirmed TB" ∧
    cellv r "Presumptive TB referred" = Val.num 1))

/-- Per-row `Duplicate check` flag over the current table `t4`. -/
def dupFlagF (t4 : Table) (r : Row) : Val :=
  if 2 ≤ t4.rows.countP
      (fun r2 => decide (keyTuple dupKeyCols r2 = keyTuple dupKeyCols r))
  then Val.str "To recheck for duplication" else Val.str ""

/-- The first four column assignments of `add_computed_columns_screening`
(through `Result check`). -/
def screenT4 (df : Table) : Table :=
  setColMap
    (setColMap
      (setColMap (setColMap df "Presumptive TB referred" presumptiveF)
        "TB Detected" tbDetectedF)
      "Bact confirmed TB" bactF)
    "Result check" result_check

/-- The first five column assignments of `add_computed_columns_screening`
(everything before the `Ongoing TB case check` step); the duplicate flags
are computed over the current frame, `screenT4 df`. -/
def screenT5 (df : Table) : Table :=
  setColMap (screenT4 df) "Duplicate check" (dupFlagF (screenT4 df))

/-- `add_computed_columns_screening`.  Every statement of the source assigns
a column in place on the object passed in and the function returns that same
object, so the result is simultaneously the returned table and the final
state of the caller's Screening table.  Column accesses on absent columns
raise, embedded as `Except.error`.  The one corner the embedding closes off
with an error of its own is a merge suffix collision (the input already
containing an `Enrolled Date` column), where pandas would rename the merged
columns and the subsequent access would raise anyway. -/
def add_computed_columns_screening (df ref_patient : Table) :
    Except String Table :=
  if (∀ c ∈ examCols, c ∈ df.cols) ∧ "Result" ∈ df.cols then
    if ∀ c ∈ dupKeyCols, c ∈ (screenT4 df).cols then
      if ref_patient.rows = [] then
        Except.ok (setColMap (screenT5 df) "Ongoing TB case check"
          (fun _ => Val.str ""))
      else if "Registration number" ∈ ref_patient.cols ∧
          "Enrolled Date" ∈ ref_patient.cols ∧
          "Registration number" ∈ (screenT5 df).cols ∧
          "Screening Date" ∈ (screenT5 df).cols then
        if "Enrolled Date" ∈ (screenT5 df).cols then
          Except.error "KeyError: Enrolled Date (merge suffix collision)"
        else
          Except.ok (setColVals (screenT5 df) "Ongoing TB case check"
            ((mergeEnrolled (screenT5 df) ref_patient).map ongoingFlag))
      else Except.error (keyErr "Ongoing TB case check inputs")
    else Except.error "KeyError: duplicated subset column"
  else Except.error (keyErr "Result")

/-- The treatment outcomes counted by `TBO2a_N`. -/
def outcomeVals : List Val :=
  [Val.str "Cure", Val.str "Complete", Val.str "Cured", Val.str "Completed",
   Val.str "Treatment Completed"]

/-- Default value of `row.get(c, dflt)`: the cell when the column exists,
the default otherwise (never raises). -/
def cellvDefault (cols : List String) (r : Row) (c : String) (dflt : Val) : Val :=
  if c ∈ cols then cellv r c else dflt

/-- The `float(row["Age_Year"]) >= 15` test of `regimen_check`, inside the
bare `except` of the source: a missing value is `nan`, whose comparison is
false (no fail); an unparseable string raises and is caught (fail). -/
def ageCRFail : Val → Bool
  | Val.na => false
  | v =>
    match pyFloatD v with
    | some d => decide ((15 : Int) * 10 ^ d.e ≤ d.m)
    | none => true

/-- Per-row `regimen_check`: "Fail" for regimen "IR" with a patient type
other than "New" or the empty string, "Fail" for regimen "CR" with age ≥ 15
or unparseable age (the bare `except` also swallows a `KeyError` on a
missing `Age_Year` column), else "OK". -/
def regimen_check (cols : List String) (r : Row) : Except String Val := do
  let rg ← rowGet cols r "TB_Treatment Regimen"
  let failIR ←
    if rg = Val.str "IR" then do
      let ty ← rowGet cols r "TB_Type of patient"
      Except.ok (decide (ty ∉ [Val.str "New", Val.str ""]))
    else Except.ok false
  if failIR then Except.ok (Val.str "Fail")
  else if rg = Val.str "CR" then
    match rowGet cols r "Age_Year" with
    | Except.error _ => Except.ok (Val.str "Fail")
    | Except.ok v => Except.ok (if ageCRFail v then Val.str "Fail" else Val.str "OK")
  else Except.ok (Val.str "OK")

/-- Per-row `tod_check` (`Type of Disease check`): when
`row.get("BC_Screening", 0) == 1`, a disease type outside
{"P", "Pulmonary TB"} fails; the disease-type column is only read in that
case. -/
def tod_check (cols : List String) (r : Row) : Except String Val :=
  if cellvDefault cols r "BC_Screening" (Val.num 0) = Val.num 1 then do
    let d ← rowGet cols r "TB_Type of Disease"
    Except.ok (if d ∉ [Val.str "P", Val.str "Pulmonary TB"] then Val.str "Fail"
               else Val.str "OK")
  else Except.ok (Val.str "OK")

/-- Per-row `outcome_check`: outcome "Cure"/"Cured" with a `BC` cell other
than 1 (a missing `BC` column reads as 0) fails. -/
def outcome_check (cols : List String) (r : Row) : Except String Val := do
  let oc ← rowGet cols r "TB_Treatment Outcome"
  Except.ok
    (if oc ∈ [Val.str "Cure", Val.str "Cured"] ∧
        cellvDefault cols r "BC" (Val.num 0) ≠ Val.num 1
     then Val.str "Fail" else Val.str "OK")

/-- `df.apply(f, axis=1)`: run `f` on each row, stopping at the first raised
exception; an empty frame never calls `f`. -/
def applyRows (f : Row → Except String Val) : List Row → Except String (List Val)
  | [] => Except.ok []
  | r :: rs => do
    let v ← f r
    let vs ← applyRows f rs
    Except.ok (v :: vs)

/-- One column-appending left merge
(`pd.merge(left, right[[key, srcCol]], on=key, how="left")`), with the
right-hand column landing under `dstCol`.  Left rows are repeated once per
matching right row; an unmatched left row gets `NaN`. -/
def mergeLeftCol (left right : Table) (key srcCol dstCol : String) : Table :=
  { cols := left.cols ++ [dstCol],
    rows := left.rows.flatMap (fun r =>
      let k := cellv r key
      let ms := right.rows.filter (fun p => decide (cellv p key = k))
      if ms = [] then [setCell r dstCol Val.na]
      else ms.map (fun p => setCell r dstCol (cellv p srcCol))) }

/-- The first, strictly in-place phase of `add_computed_columns_patient`
(`TBDT_1` through `TBO2a_N`): every assignment here lands on the caller's
Patient object.  Reading `Channel_Screening` for `TBDT_3c` happens in this
phase, before any join could create that column. -/
def patientInPlace (df : Table) : Except String Table := do
  let p1 ←
    if "TB_Type of patient" ∈ df.cols then
      Except.ok (setColMap df "TBDT_1" (fun r =>
        boolInt (decide (cellv r "TB_Type of patient" ∈
          [Val.str "New", Val.str "Relapse"]))))
    else Except.error (keyErr "TB_Type of patient")
  let p2 ←
    if "Channel_Screening" ∈ p1.cols then
      Except.ok (setColMap p1 "TBDT_3c" (fun r =>
        boolInt (decide (cellv r "TBDT_1" = Val.num 1 ∧
          cellv r "Channel_Screening" ∈ [Val.str "Volunteer", Val.str "ICHV"]))))
    else Except.error (keyErr "Channel_Screening")
  let p3 ←
    if "TPT_Treatment Regimen" ∈ p2.cols ∧ "TPT_Start date" ∈ p2.cols then
      Except.ok (setColMap p2 "TBP-1" (fun r =>
        boolInt (decide (cellv r "TPT_Treatment Regimen" ≠ Val.na ∧
          cellv r "TPT_Start date" ≠ Val.na))))
    else Except.error (keyErr "TPT_Treatment Regimen")
  let p4 ←
    if "HIV status" ∈ p3.cols then
      Except.ok (setColMap p3 "TBHIV_5" (fun r =>
        boolInt (decide (cellv r "TBDT_1" = Val.num 1 ∧
          cellv r "HIV status" ∈ [Val.str "Positive", Val.str "Negative"]))))
    else Except.error (keyErr "HIV status")
  if "TBO2a_D" ∈ p4.cols then
    if "TB_Treatment Outcome" ∈ p4.cols then
      Except.ok (setColMap p4 "TBO2a_N" (fun r =>
        boolInt (decide (cellv r "TBO2a_D" = Val.num 1 ∧
          cellv r "TB_Treatment Outcome" ∈ outcomeVals))))
    else Except.error (keyErr "TB_Treatment Outcome")
  else
    Except.ok (setColMap p4 "TBO2a_N" (fun _ => Val.num 0))

/-- The join phase of `add_computed_columns_patient`
(`Channel_Screening` / `BC_Screening` / `TB Detected_Screening`).  With an
empty Screening table every branch keeps assigning empty-string columns in
place; with a non-empty one, `df = pd.merge(...)` rebinds `df` to fresh
objects.  Merge suffix collisions (the Patient table already holding a
`Channel`, `Bact confirmed TB` or `TB Detected` column) are closed off with
an error; in the source they would rename columns and either raise on the
following access or silently produce `_x`/`_y` columns — no claim touches
that corner. -/
def patientJoins (p5 ref : Table) : Except String Table :=
  if ref.rows = [] then
    let q1 := setColMap p5 "Channel_Screening" (fun _ => Val.str "")
    let q2 := setColMap q1 "BC_Screening" (fun _ => Val.str "")
    Except.ok (setColMap q2 "TB Detected_Screening" (fun _ => Val.str ""))
  else do
    let m1 ←
      if "Registration number" ∈ ref.cols ∧ "Channel" ∈ ref.cols ∧
          "Registration number" ∈ p5.cols then
        if "Channel" ∈ p5.cols then
          Except.error "KeyError: Channel (merge suffix collision)"
        else
          Except.ok (mergeLeftCol p5 ref "Registration number" "Channel" "Channel")
      else Except.error (keyErr "Channel")
    let m2 ←
      if "Bact confirmed TB" ∈ ref.cols then
        if "Bact confirmed TB" ∈ m1.cols then
          Except.error "KeyError: Bact confirmed TB (merge suffix collision)"
        else
          Except.ok (setColMap
            (mergeLeftCol m1 ref "Registration number" "Bact confirmed TB"
              "Bact confirmed TB")
            "BC_Screening" (fun r => cellv r "Bact confirmed TB"))
      else Except.ok (setColMap m1 "BC_Screening" (fun _ => Val.str ""))
    if "TB Detected" ∈ ref.cols then
      if "TB Detected" ∈ m2.cols then
        Except.error "KeyError: TB Detected (merge suffix collision)"
      else
        Except.ok (mergeLeftCol m2 ref "Registration number" "TB Detected"
          "TB Detected")
    else Except.ok (setColMap m2 "TB Detected_Screening" (fun _ => Val.str ""))

/-- The final phase of `add_computed_columns_patient`: the three
`apply`-based checks and `Tin check`. -/
def patientChecks (t ref : Table) : Except String Table := do
  let rvs ← applyRows (regimen_check t.cols) t.rows
  let t6 := setColVals t "Regimen check" rvs
  let tvs ← applyRows (tod_check t6.cols) t6.rows
  let t7 := setColVals t6 "Type of Disease check" tvs
  let ovs ← applyRows (outcome_check t7.cols) t7.rows
  let t8 := setColVals t7 "Outcome check" ovs
  if ref.rows = [] then
    Except.ok (setColMap t8 "Tin check" (fun _ => Val.str ""))
  else if "Registration number" ∈ t8.cols ∧ "Registration number" ∈ ref.cols then
    let regs := ref.rows.map (fun p => cellv p "Registration number")
    Except.ok (setColMap t8 "Tin check" (fun r =>
      if cellv r "Registration number" ∉ regs then Val.str "Yes" else Val.str ""))
  else Except.error (keyErr "Registration number")

/-- `add_computed_columns_patient`.  The first component of the result is
the table the function returns; the second is the final state of the
caller's Patient object: when the Screening table is non-empty the first
`pd.merge` rebinds `df` to a fresh object, so the caller's object keeps only
the in-place phase (`patientInPlace`); when it is empty no rebinding happens
and the caller's object is the returned table itself. -/
def add_computed_columns_patient (df ref_screening : Table) :
    Except String (Table × Table) := do
  let p5 ← patientInPlace df
  let mj ← patientJoins p5 ref_screening
  let ret ← patientChecks mj ref_screening
  if ref_screening.rows = [] then Except.ok (ret, ret)
  else Except.ok (ret, p5)

/-- The four caller-supplied data tables of one validation run. -/
structure Tables where
  screening : Table
  patient : Table
  service : Table
  visit : Table
deriving DecidableEq, Repr

/-- The derived-column phase of `check_rules` (its last lines before the
results are returned), tracked on the caller's table objects: the Screening
object ends as the enriched Screening table (all its assignments are in
place), the Patient object ends as `add_computed_columns_patient`'s
caller-view component, and the Service Point and Visit objects are never
touched. -/
def pipelineFinalState (s : Tables) : Except String Tables :=
  match add_computed_columns_screening s.screening s.patient with
  | Except.error e => Except.error e
  | Except.ok scr =>
    match add_computed_columns_patient s.patient scr with
    | Except.error e => Except.error e
    | Except.ok pr =>
      Except.ok { screening := scr, patient := pr.2, service := s.service,
                  visit := s.visit }

/-- The five parsed sheets handed to `check_rules` (sheet loading itself is
the excluded I/O shell; the engine starts from materialized tables). -/
structure CheckInput where
  service : Table
  screening : Table
  patient : Table
  visit : Table
  dropdown : List (Val × Val)
deriving Repr

/-- `check_rules`: the validation runner.  `today` is the run-time current
date used as the default upper bound of the date checks.  Each rule's
violation rows (`df.loc[indices]`) are stored under its name, in source
order; the enriched tables close the list.  There is no per-rule error
capture in the source: the first raised exception propagates and aborts the
whole run, which the `Except` chain reproduces. -/
def check_rules (today : Nat) (inp : CheckInput) :
    Except String (List (String × Table)) := do
  let r1 ← check_state_region inp.screening
    (load_dropdowns inp.dropdown).1 "State / Region"
  let r2 ← check_township inp.screening (load_dropdowns inp.dropdown).1
    "State / Region" "Township"
  let r3 ← check_service_point inp.screening inp.service
    "Service delivery point" "Service delivery point code"
  let r4 ← check_value_list inp.screening "Reporting Month"
    ((lookupVal (load_dropdowns inp.dropdown).2
      (Val.str "Reporting Month")).getD [])
  let r5 ← check_date today inp.screening "Screening Date"
  let r6 ← check_numeric inp.screening "Age_Year" 0 100
  let r7 ← check_sex_prefix inp.screening "Name" "Sex"
  let r8 ← check_registration_match inp.screening inp.patient
    "Registration number"
  let r9 ← check_duplicate inp.screening dupKeyCols
  let r10 ← check_state_region inp.patient
    (load_dropdowns inp.dropdown).1 "State/region"
  let r11 ← check_township inp.patient (load_dropdowns inp.dropdown).1
    "State/region" "Township"
  let r12 ← check_service_point inp.patient inp.service
    "Service Delivery point" "Service delivery point code"
  let r13 ← check_duplicate inp.patient ["Registration number"]
  let r14 ← check_numeric inp.patient "Age_Year" 0 100
  let r15 ← check_sex_prefix inp.patient "Name" "Sex"
  let r16 ← check_registration_match inp.visit inp.patient
    "Registration number"
  let r17 ← check_date today inp.visit "Visit date"
  let r18 ← check_state_region inp.service
    (load_dropdowns inp.dropdown).1 "State/Region"
  let r19 ← check_township inp.service (load_dropdowns inp.dropdown).1
    "State/Region" "Township"
  let scr ← add_computed_columns_screening inp.screening inp.patient
  let pr ← add_computed_columns_patient inp.patient scr
  Except.ok
    [("Screening_invalid_state", subTable inp.screening r1),
     ("Screening_invalid_township", subTable inp.screening r2),
     ("Screening_invalid_service_point", subTable inp.screening r3),
     ("Screening_invalid_reporting_month", subTable inp.screening r4),
     ("Screening_invalid_screening_date", subTable inp.screening r5),
     ("Screening_invalid_age_year", subTable inp.screening r6),
     ("Screening_sex_prefix", subTable inp.screening r7),
     ("Screening_invalid_registration_number", subTable inp.screening r8),
     ("Screening_duplicates", subTable inp.screening r9),
     ("Patient_invalid_state", subTable inp.patient r10),
     ("Patient_invalid_township", subTable inp.patient r11),
     ("Patient_invalid_service_point", subTable inp.patient r12),
     ("Patient_invalid_registration_number_duplicate", subTable inp.patient r13),
     ("Patient_invalid_age_year", subTable inp.patient r14),
     ("Patient_sex_prefix", subTable inp.patient r15),
     ("Visit_invalid_registration_number", subTable inp.visit r16),
     ("Visit_invalid_visit_date", subTable inp.visit r17),
     ("Service_invalid_state", subTable inp.service r18),
     ("Service_invalid_township", subTable inp.service r19),
     ("Screening_with_computed", scr),
     ("Patient_with_computed", pr.1)]

/-- The empty table. -/
def emptyTable : Table := { cols := [], rows := [] }

/-- Patient table for the `TBDT_3c` ordering bug: the columns a vanilla
Patient sheet has, and in particular no `Channel_Screening` column. -/
def c3Patient : Table :=
  { cols := ["Registration number", "TB_Type of patient"],
    rows := [[("Registration number", Val.str "R1"),
              ("TB_Type of patient", Val.str "New")]] }

/-- Numeric-check sample column holding the spec's four sample values. -/
def c5T : Table :=
  { cols := ["v"],
    rows := [[("v", Val.str "150")], [("v", Val.str "abc")],
             [("v", Val.str "")], [("v", Val.str "50")]] }

/-- Region-township sample catalog: one region with two townships. -/
def c6Cat : Catalog := [(Val.str "North", [Val.str "A", Val.str "B"])]

/-- Region-township sample table: a valid pair, a wrong township, an
unknown region. -/
def c6T : Table :=
  { cols := ["st", "tw"],
    rows := [[("st", Val.str "North"), ("tw", Val.str "A")],
             [("st", Val.str "North"), ("tw", Val.str "C")],
             [("st", Val.str "South"), ("tw", Val.str "A")]] }

/-- Duplicate-check sample table: rows 0 and 2 share the key value. -/
def c7T : Table :=
  { cols := ["k"],
    rows := [[("k", Val.str "x")], [("k", Val.str "y")], [("k", Val.str "x")]] }

/-- Sample table for the naming-convention claims: a female-prefixed name
with a missing sex cell. -/
def c10T : Table :=
  { cols := ["Name", "Sex"],
    rows := [[("Name", Val.str "Ma Aye")]] }

/-- A populated validation input whose Screening sheet lacks only the
`State / Region` column referenced by the first rule. -/
def c1Input : CheckInput :=
  { service := { cols := ["State/Region", "Township",
                          "Service delivery point code"], rows := [] },
    screening := { cols := ["Township", "Service delivery point",
                            "Reporting Month", "Screening Date", "Age_Year",
                            "Name", "Sex", "Registration number"],
                   rows := [[("Township", Val.str "A"),
                             ("Name", Val.str "Ma Aye")]] },
    patient := { cols := ["Registration number"], rows := [] },
    visit := { cols := ["Registration number", "Visit date"], rows := [] },
    dropdown := [(Val.str "North", Val.str "A")] }

/-- Screening sample for the mutation claims: one fully populated record. -/
def c2Scr : Table :=
  { cols := ["Registration number", "Channel", "Examination results_Sputum",
             "Examination results_CXR", "Examination results_Gene Xpert",
             "Examination results_Truenet", "Result", "Service delivery point",
             "Name", "Age_Year", "Sex", "Screening Date"],
    rows := [[("Registration number", Val.str "R1"),
              ("Channel", Val.str "Volunteer"),
              ("Examination results_Sputum", Val.str "Positive"),
              ("Result", Val.str "Bact confirmed TB"),
              ("Name", Val.str "Ma Aye"), ("Sex", Val.str "F"),
              ("Age_Year", Val.num 30),
              ("Screening Date", Val.str "2024-06-01")]] }

/-- Patient sample for the mutation claims: the columns the Patient pipeline
reads, no records. -/
def c2Pat : Table :=
  { cols := ["Registration number", "TB_Type of patient", "Channel_Screening",
             "TPT_Treatment Regimen", "TPT_Start date", "HIV status"],
    rows := [] }

/-- The four caller tables of the mutation sample run. -/
def c2Tables : Tables :=
  { screening := c2Scr, patient := c2Pat,
    service := { cols := ["State/Region", "Township"], rows := [] },
    visit := { cols := ["Visit date"], rows := [] } }

/-- The enriched Screening table of the mutation/end-to-end sample run. -/
def c8T : Table :=
  ((add_computed_columns_screening c2Scr c2Pat).toOption).getD emptyTable

/-- Screening sample for the ongoing-case claims. -/
def c4Scr : Table :=
  { cols := ["Registration number", "Screening Date", "Result",
             "Examination results_Sputum", "Examination results_CXR",
             "Examination results_Gene Xpert", "Examination results_Truenet",
             "Service delivery point", "Name", "Age_Year", "Sex"],
    rows := [[("Registration number", Val.str "R1"),
              ("Screening Date", Val.str "2024-06-01")]] }

/-- Patient sample with a duplicated registration number: the first match
has a missing enrollment date, the second a valid earlier one. -/
def c4Pat : Table :=
  { cols := ["Registration number", "Enrolled Date"],
    rows := [[("Registration number", Val.str "R1")],
             [("Registration number", Val.str "R1"),
              ("Enrolled Date", Val.str "2024-01-01")]] }

/-- Patient sample with unique registration numbers. -/
def c4wPat : Table :=
  { cols := ["Registration number", "Enrolled Date"],
    rows := [[("Registration number", Val.str "R1"),
              ("Enrolled Date", Val.str "2024-01-01")]] }

/-- The enriched Screening table of the unique-registration sample run. -/
def c4wT : Table :=
  ((add_computed_columns_screening c4Scr c4wPat).toOption).getD emptyTable

theorem lookupv_setCell_self (r : Row) (c : String) (v : Val) :
    lookupv (setCell r c v) c = some v := by
  induction r with
  | nil => simp [setCell, lookupv]
  | cons p rs ih =>
    by_cases hp : p.1 = c
    · simp [setCell, hp, lookupv]
    · simp [setCell, hp, lookupv, ih]

theorem lookupv_setCell_ne (r : Row) (c c' : String) (v : Val) (h : c' ≠ c) :
    lookupv (setCell r c v) c' = lookupv r c' := by
  induction r with
  | nil => simp [setCell, lookupv, Ne.symm h]
  | cons p rs ih =>
    by_cases hp : p.1 = c
    · have hp2 : p.1 ≠ c' := by rw [hp]; exact Ne.symm h
      simp [setCell, hp, lookupv, hp2, Ne.symm h]
    · simp only [setCell, if_neg hp, lookupv]
      by_cases hp' : p.1 = c' <;> simp [hp', ih]

theorem cellv_setCell_self (r : Row) (c : String) (v : Val) :
    cellv (setCell r c v) c = v := by
  simp [cellv, lookupv_setCell_self]

theorem cellv_setCell_ne (r : Row) (c c' : String) (v : Val) (h : c' ≠ c) :
    cellv (setCell r c v) c' = cellv r c' := by
  simp [cellv, lookupv_setCell_ne _ _ _ _ h]

theorem rows_length_setColMap (t : Table) (c : String) (f : Row → Val) :
    (setColMap t c f).rows.length = t.rows.length := by
  simp [setColMap]

theorem rows_get?_setColMap (t : Table) (c : String) (f : Row → Val) (i : Nat) :
    (setColMap t c f).rows.get? i = (t.rows.get? i).map (fun r => setCell r c (f r)) := by
  simp [setColMap, List.get?_map]

theorem cellIdx_setColMap_self (t : Table) (c : String) (f : Row → Val) (i : Nat) :
    cellIdx (setColMap t c f) c i = ((t.rows.get? i).map f).getD Val.na := by
  unfold cellIdx
  rw [rows_get?_setColMap]
  cases t.rows.get? i with
  | none => rfl
  | some r => simp [cellv_setCell_self]

theorem cellIdx_setColMap_ne (t : Table) (c c' : String) (f : Row → Val) (i : Nat)
    (h : c' ≠ c) : cellIdx (setColMap t c f) c' i = cellIdx t c' i := by
  unfold cellIdx
  rw [rows_get?_setColMap]
  cases t.rows.get? i with
  | none => rfl
  | some r => simp [cellv_setCell_ne _ _ _ _ h]

theorem zipSetCol_length (c : String) (rs : List Row) (vs : List Val) :
    (zipSetCol c rs vs).length = rs.length := by
  induction rs generalizing vs with
  | nil => simp [zipSetCol]
  | cons r rs ih =>
    cases vs with
    | nil => simp [zipSetCol, ih]
    | cons v vs => simp [zipSetCol, ih]

theorem zipSetCol_get? (c : String) (rs : List Row) (vs : List Val) (i : Nat) :
    (zipSetCol c rs vs).get? i =
      (rs.get? i).map (fun r => setCell r c ((vs.get? i).getD Val.na)) := by
  induction rs generalizing vs i with
  | nil => simp [zipSetCol]
  | cons r rs ih =>
    cases vs with
    | nil =>
      cases i with
      | zero => simp [zipSetCol]
      | succ j => simpa [zipSetCol] using ih [] j
    | cons v vs =>
      cases i with
      | zero => simp [zipSetCol]
      | succ j => simpa [zipSetCol] using ih vs j

theorem rows_length_setColVals (t : Table) (c : String) (vs : List Val) :
    (setColVals t c vs).rows.length = t.rows.length := by
  simp [setColVals, zipSetCol_length]

theorem cellIdx_setColVals_self (t : Table) (c : String) (vs : List Val) (i : Nat)
    (hi : i < t.rows.length) :
    cellIdx (setColVals t c vs) c i = (vs.get? i).getD Val.na := by
  unfold cellIdx
  have h := zipSetCol_get? c t.rows vs i
  rw [show (setColVals t c vs).rows = zipSetCol c t.rows vs from rfl, h]
  cases hr : t.rows.get? i with
  | none => exact absurd (List.get?_eq_none.mp hr) (by omega)
  | some r => simp [cellv_setCell_self]

theorem cellIdx_setColVals_ne (t : Table) (c c' : String) (vs : List Val) (i : Nat)
    (h : c' ≠ c) : cellIdx (setColVals t c vs) c' i = cellIdx t c' i := by
  unfold cellIdx
  rw [show (setColVals t c vs).rows = zipSetCol c t.rows vs from rfl, zipSetCol_get?]
  cases t.rows.get? i with
  | none => rfl
  | some r => simp [cellv_setCell_ne _ _ _ _ h]

theorem mem_filterIdx (n : Nat) (p : Nat → Bool) (i : Nat) :
    i ∈ filterIdx n p ↔ i < n ∧ p i = true := by
  simp [filterIdx, List.mem_filter, List.mem_range]

theorem filterIdx_nodup (n : Nat) (p : Nat → Bool) : (filterIdx n p).Nodup :=
  (List.nodup_range n).filter p

/-- C3: code bug in the Patient pipeline.  `TBDT_3c` is supposed to use the
screening channel joined from the Screening table, but the source reads
`df["Channel_Screening"]` before the join that creates that column runs, so
on a Patient table without a pre-existing `Channel_Screening` column the
whole derivation aborts with a `KeyError` instead of computing `TBDT_3c`. -/
theorem tbdt3c_reads_channel_before_join :
    add_computed_columns_patient c3Patient emptyTable =
      Except.error (keyErr "Channel_Screening") := by rfl

/-- C5: the numeric range check with the default bounds `[0, 100]` flags a
record exactly when its value does not parse as a number (missing and empty
values included) or parses to a number outside `[0, 100]`. -/
theorem inRangeD_iff (d : Dec10) (lo hi : Int) :
    inRangeD d lo hi = true ↔
      ((lo : ℚ) ≤ dec10toRat d ∧ dec10toRat d ≤ (hi : ℚ)) := by
  unfold inRangeD dec10toRat
  have hp : (0 : ℚ) < (10 : ℚ) ^ d.e := by positivity
  rw [decide_eq_true_eq, le_div_iff hp, div_le_iff hp]
  constructor
  · rintro ⟨h1, h2⟩
    exact ⟨by exact_mod_cast h1, by exact_mod_cast h2⟩
  · rintro ⟨h1, h2⟩
    exact ⟨by exact_mod_cast h1, by exact_mod_cast h2⟩

theorem check_numeric_flags_iff (t : Table) (c : String) (l : List Nat)
    (h : check_numeric t c 0 100 = Except.ok l) (i : Nat)
    (hi : i < t.rows.length) :
    i ∈ l ↔ ∀ q, pyFloat (cellIdx t c i) = some q → ¬ ((0:ℚ) ≤ q ∧ q ≤ 100) := by
  unfold check_numeric at h
  split at h
  · rw [Except.ok.injEq] at h
    subst h
    rw [mem_filterIdx]
    cases hq : pyFloatD (cellIdx t c i) with
    | none => simp [pyFloat, hq, hi]
    | some d =>
      have hb : inRangeD d 0 100 = true ↔
          ((0:ℚ) ≤ dec10toRat d ∧ dec10toRat d ≤ 100) := by
        simpa using inRangeD_iff d 0 100
      simp only [pyFloat, hq, Option.map_some', hi, true_and,
        Option.some.injEq]
      constructor
      · intro hmem q hq2
        subst hq2
        intro hcon
        rw [← hb] at hcon
        simp [hcon] at hmem
      · intro hall
        have := hall (dec10toRat d) rfl
        rw [← hb] at this
        simp [Bool.not_eq_true] at this ⊢
        simp [this]
  · cases h

/-- Witness for C5: the spec's four sample values — "150", "abc" and the
empty value are flagged, "50" is not. -/
theorem check_numeric_flags_iff_witness :
    ((0 ∈ ([0, 1, 2] : List Nat)) ↔
      ∀ q, pyFloat (cellIdx c5T "v" 0) = some q → ¬ ((0:ℚ) ≤ q ∧ q ≤ 100)) ∧
    ((3 ∈ ([0, 1, 2] : List Nat)) ↔
      ∀ q, pyFloat (cellIdx c5T "v" 3) = some q → ¬ ((0:ℚ) ≤ q ∧ q ≤ 100)) :=
  ⟨check_numeric_flags_iff c5T "v" [0, 1, 2] (by decide) 0 (by decide),
   check_numeric_flags_iff c5T "v" [0, 1, 2] (by decide) 3 (by decide)⟩

/-- C6: the region-township check flags a record exactly when its region is
not a key of the catalog or its township is not a member of the region's
township set. -/
theorem check_township_flags_iff (t : Table) (d : Catalog) (sc tc : String)
    (l : List Nat) (h : check_township t d sc tc = Except.ok l) (i : Nat)
    (hi : i < t.rows.length) :
    i ∈ l ↔
      ¬ ∃ tws, lookupVal d (cellIdx t sc i) = some tws ∧ cellIdx t tc i ∈ tws := by
  unfold check_township at h
  split at h
  · rename_i hrows
    rw [hrows] at hi
    simp at hi
  · split at h
    · rw [Except.ok.injEq] at h
      subst h
      rw [mem_filterIdx]
      cases hq : lookupVal d (cellIdx t sc i) with
      | none => simp [hi, hq]
      | some tws => simp [hi, hq]
    · cases h

/-- Witness for C6: in the sample table, (North, A) is not flagged while
(North, C) and (South, A) are. -/
theorem check_township_flags_iff_witness :
    ((0 ∈ ([1, 2] : List Nat)) ↔
      ¬ ∃ tws, lookupVal c6Cat (cellIdx c6T "st" 0) = some tws ∧
        cellIdx c6T "tw" 0 ∈ tws) ∧
    ((1 ∈ ([1, 2] : List Nat)) ↔
      ¬ ∃ tws, lookupVal c6Cat (cellIdx c6T "st" 1) = some tws ∧
        cellIdx c6T "tw" 1 ∈ tws) :=
  ⟨check_township_flags_iff c6T c6Cat "st" "tw" [1, 2] (by decide) 0 (by decide),
   check_township_flags_iff c6T c6Cat "st" "tw" [1, 2] (by decide) 1 (by decide)⟩

theorem countP_two_iff (ks : List (List Val)) (i : Nat) (v : List Val)
    (hv : ks.get? i = some v) :
    2 ≤ ks.countP (fun k => decide (v = k)) ↔
      ∃ j, j ≠ i ∧ ks.get? j = some v := by
  induction ks generalizing i with
  | nil => simp at hv
  | cons a tl ih =>
    cases i with
    | zero =>
      have hav : a = v := by simpa using hv
      subst hav
      have hcnt : List.countP (fun k => decide (a = k)) (a :: tl) =
          List.countP (fun k => decide (a = k)) tl + 1 := by
        simp [List.countP_cons]
      rw [hcnt]
      constructor
      · intro h2
        have h1 : 0 < List.countP (fun k => decide (a = k)) tl := by omega
        rw [List.countP_pos_iff] at h1
        obtain ⟨b, hb, hab⟩ := h1
        rw [decide_eq_true_eq] at hab
        subst hab
        obtain ⟨n, hn⟩ := List.mem_iff_get?.mp hb
        exact ⟨n + 1, by omega, by simpa using hn⟩
      · rintro ⟨j, hj, hgj⟩
        cases j with
        | zero => omega
        | succ m =>
          have hm : a ∈ tl := List.get?_mem (by simpa using hgj)
          have h1 : 0 < List.countP (fun k => decide (a = k)) tl :=
            List.countP_pos_iff.mpr ⟨a, hm, by simp⟩
          omega
    | succ n =>
      have hv' : tl.get? n = some v := by simpa using hv
      by_cases hav : v = a
      · have hm : v ∈ tl := List.get?_mem hv'
        have h1 : 0 < List.countP (fun k => decide (v = k)) tl :=
          List.countP_pos_iff.mpr ⟨v, hm, by simp⟩
        have hcnt : List.countP (fun k => decide (v = k)) (a :: tl) =
            List.countP (fun k => decide (v = k)) tl + 1 := by
          simp [List.countP_cons, hav]
        rw [hcnt]
        constructor
        · intro _
          exact ⟨0, by omega, by simp [hav]⟩
        · intro _
          omega
      · have hcnt : List.countP (fun k => decide (v = k)) (a :: tl) =
            List.countP (fun k => decide (v = k)) tl := by
          simp [List.countP_cons, hav]
        rw [hcnt, ih n hv']
        constructor
        · rintro ⟨j, hj, hgj⟩
          exact ⟨j + 1, by omega, by simpa using hgj⟩
        · rintro ⟨j, hj, hgj⟩
          cases j with
          | zero =>
            exact absurd ((by simpa using hgj : a = v)).symm hav
          | succ m =>
            exact ⟨m, by omega, by simpa using hgj⟩

/-- C7: duplicate-key detection is symmetric and complete — whenever two
distinct records share the key tuple, both are flagged, and a record whose
key tuple is unique is never flagged. -/
theorem check_duplicate_symmetric (t : Table) (cols : List String) (l : List Nat)
    (h : check_duplicate t cols = Except.ok l) :
    (∀ i j, i < t.rows.length → j < t.rows.length → i ≠ j →
      (t.rows.get? i).map (keyTuple cols) = (t.rows.get? j).map (keyTuple cols) →
      i ∈ l ∧ j ∈ l) ∧
    (∀ i, i < t.rows.length →
      (∀ j, j < t.rows.length → j ≠ i →
        (t.rows.get? j).map (keyTuple cols) ≠ (t.rows.get? i).map (keyTuple cols)) →
      i ∉ l) := by
  have hmem : ∀ i, i < t.rows.length →
      (i ∈ l ↔ ∃ j, j ≠ i ∧
        (t.rows.get? j).map (keyTuple cols) = (t.rows.get? i).map (keyTuple cols)) := by
    intro i hi
    unfold check_duplicate at h
    split at h
    · rw [Except.ok.injEq] at h
      subst h
      rw [mem_filterIdx]
      obtain ⟨r, hr⟩ : ∃ r, t.rows.get? i = some r := by
        cases hg : t.rows.get? i with
        | none => exact absurd (List.get?_eq_none.mp hg) (by omega)
        | some r => exact ⟨r, rfl⟩
      have hks : (t.rows.map (keyTuple cols)).get? i = some (keyTuple cols r) := by
        rw [List.get?_map, hr]
        rfl
      have hcnt := countP_two_iff (t.rows.map (keyTuple cols)) i (keyTuple cols r) hks
      have hpc : (t.rows.map (keyTuple cols)).countP
          (fun k => decide ((t.rows.map (keyTuple cols)).get? i = some k)) =
          (t.rows.map (keyTuple cols)).countP
          (fun k => decide (keyTuple cols r = k)) := by
        apply List.countP_congr
        intro k _
        rw [hks]
        simp
      constructor
      · rintro ⟨-, hp⟩
        rw [decide_eq_true_eq, hpc] at hp
        obtain ⟨j, hj, hgj⟩ := hcnt.mp hp
        refine ⟨j, hj, ?_⟩
        rw [← List.get?_map, ← List.get?_map, hgj, hks]
      · rintro ⟨j, hj, hgj⟩
        refine ⟨hi, ?_⟩
        rw [decide_eq_true_eq, hpc]
        apply hcnt.mpr
        refine ⟨j, hj, ?_⟩
        rw [List.get?_map, hgj, ← List.get?_map, hks]
    · cases h
  constructor
  · intro i j hi hj hij heq
    constructor
    · exact (hmem i hi).mpr ⟨j, fun hc => hij hc.symm, heq.symm⟩
    · exact (hmem j hj).mpr ⟨i, fun hc => hij hc, heq⟩
  · intro i hi hun hin
    obtain ⟨j, hj, hgj⟩ := (hmem i hi).mp hin
    obtain ⟨r, hr⟩ : ∃ r, t.rows.get? i = some r := by
      cases hg : t.rows.get? i with
      | none => exact absurd (List.get?_eq_none.mp hg) (by omega)
      | some r => exact ⟨r, rfl⟩
    have hjlt : j < t.rows.length := by
      by_contra hc
      rw [List.get?_eq_none.mpr (by omega), hr] at hgj
      simp at hgj
    exact hun j hjlt hj hgj

/-- Witness for C7: in the sample table rows 0 and 2 share the key, both are
flagged. -/
theorem check_duplicate_symmetric_witness :
    (0 ∈ ([0, 2] : List Nat)) ∧ (2 ∈ ([0, 2] : List Nat)) :=
  (check_duplicate_symmetric c7T ["k"] [0, 2] (by decide)).1 0 2 (by decide)
    (by decide) (by decide) (by decide)

theorem femaleP_not_maleP (s : String) (hf : s ∈ femaleP) : s ∉ maleP := by
  fin_cases hf <;> decide

theorem sexRowFlags_not_both (cols : List String) (nc sc : String) (r : Row)
    (fm : Bool × Bool) (h : sexRowFlags cols nc sc r = Except.ok fm) :
    ¬ (fm.1 = true ∧ fm.2 = true) := by
  rintro ⟨h1, h2⟩
  unfold sexRowFlags at h
  cases hnv : rowGet cols r nc with
  | error e => rw [hnv] at h; simp at h
  | ok nv =>
    rw [hnv] at h
    cases hsv : rowGet cols r sc with
    | error e => rw [hsv] at h; simp at h
    | ok sv =>
      rw [hsv] at h
      simp only [] at h
      cases hpfx : (if pyStr nv = "" then some ""
          else (wsTokens (pyStr nv)).head?) with
      | none => rw [hpfx] at h; simp at h
      | some pfx =>
        rw [hpfx] at h
        rw [Except.ok.injEq] at h
        subst h
        rw [decide_eq_true_eq] at h1 h2
        exact femaleP_not_maleP pfx h1.1 h2.1

theorem sexLoop_nodup_sub (cols : List String) (nc sc : String)
    (l : List (Nat × Row)) (res : List Nat)
    (h : sexLoop cols nc sc l = Except.ok res)
    (hnd : (l.map Prod.fst).Nodup) :
    (∀ i ∈ res, i ∈ l.map Prod.fst) ∧ res.Nodup := by
  induction l generalizing res with
  | nil =>
    rw [sexLoop, Except.ok.injEq] at h
    subst h
    simp
  | cons p rest ih =>
    obtain ⟨i, r⟩ := p
    rw [sexLoop] at h
    cases hf : sexRowFlags cols nc sc r with
    | error e => rw [hf] at h; simp at h
    | ok fm =>
      rw [hf] at h
      cases ht : sexLoop cols nc sc rest with
      | error e => rw [ht] at h; simp at h
      | ok tail =>
        rw [ht] at h
        simp only [] at h
        rw [Except.ok.injEq] at h
        subst h
        rw [List.map_cons, List.nodup_cons] at hnd
        obtain ⟨hni, hndr⟩ := hnd
        obtain ⟨hsub, hndt⟩ := ih tail ht hndr
        have hnb := sexRowFlags_not_both cols nc sc r fm hf
        have hit : i ∉ tail := fun hc => hni (hsub i hc)
        cases hb1 : fm.1 <;> cases hb2 : fm.2
        · have hres : ((if false = true then [i] else []) ++
              (if false = true then [i] else [])) ++ tail = tail := rfl
          rw [hres]
          exact ⟨fun x hx => List.mem_cons_of_mem i (hsub x hx), hndt⟩
        · have hres : ((if false = true then [i] else []) ++
              (if true = true then [i] else [])) ++ tail = i :: tail := rfl
          rw [hres]
          refine ⟨?_, List.nodup_cons.mpr ⟨hit, hndt⟩⟩
          intro x hx
          rcases List.mem_cons.mp hx with rfl | hx2
          · exact List.mem_cons_self _ _
          · exact List.mem_cons_of_mem i (hsub x hx2)
        · have hres : ((if true = true then [i] else []) ++
              (if false = true then [i] else [])) ++ tail = i :: tail := rfl
          rw [hres]
          refine ⟨?_, List.nodup_cons.mpr ⟨hit, hndt⟩⟩
          intro x hx
          rcases List.mem_cons.mp hx with rfl | hx2
          · exact List.mem_cons_self _ _
          · exact List.mem_cons_of_mem i (hsub x hx2)
        · exact absurd ⟨hb1, hb2⟩ hnb

theorem sexLoop_flag_mem (cols : List String) (nc sc : String)
    (l : List (Nat × Row)) (res : List Nat)
    (h : sexLoop cols nc sc l = Except.ok res) (i : Nat) (r : Row)
    (hir : (i, r) ∈ l) :
    ∃ fm, sexRowFlags cols nc sc r = Except.ok fm ∧
      ((fm.1 = true ∨ fm.2 = true) → i ∈ res) := by
  induction l generalizing res with
  | nil => simp at hir
  | cons p rest ih =>
    obtain ⟨j, r'⟩ := p
    rw [sexLoop] at h
    cases hf : sexRowFlags cols nc sc r' with
    | error e => rw [hf] at h; simp at h
    | ok fm' =>
      rw [hf] at h
      cases ht : sexLoop cols nc sc rest with
      | error e => rw [ht] at h; simp at h
      | ok tail =>
        rw [ht] at h
        simp only [] at h
        rw [Except.ok.injEq] at h
        subst h
        rcases List.mem_cons.mp hir with heq | hmem
        · injection heq with hji hrr
          subst hji
          subst hrr
          refine ⟨fm', hf, ?_⟩
          rintro (h1 | h2)
          · simp [h1, List.mem_append]
          · simp [h2, List.mem_append]
        · obtain ⟨fm, hfm, himp⟩ := ih tail ht hmem
          refine ⟨fm, hfm, fun hor => ?_⟩
          have := himp hor
          simp [List.mem_append, this]

theorem check_sex_prefix_wellformed (t : Table) (nc sc : String)
    (res : List Nat) (h : check_sex_prefix t nc sc = Except.ok res) :
    (∀ i ∈ res, i < t.rows.length) ∧ res.Nodup := by
  have hnd : (t.rows.enum.map Prod.fst).Nodup := by
    rw [List.enum_map_fst]
    exact List.nodup_range _
  obtain ⟨hsub, hndr⟩ := sexLoop_nodup_sub t.cols nc sc t.rows.enum res h hnd
  refine ⟨?_, hndr⟩
  intro i hi
  have h2 := hsub i hi
  rw [List.enum_map_fst] at h2
  exact List.mem_range.mp h2

/-- C9: every validator returns a violation set containing only indices of
records present in the source table, with no index repeated. -/
theorem violation_sets_wellformed :
    (∀ t d sc tc l, check_township t d sc tc = Except.ok l →
      (∀ i ∈ l, i < t.rows.length) ∧ l.Nodup) ∧
    (∀ t nc sc l, check_sex_prefix t nc sc = Except.ok l →
      (∀ i ∈ l, i < t.rows.length) ∧ l.Nodup) ∧
    (∀ t d c l, check_state_region t d c = Except.ok l →
      (∀ i ∈ l, i < t.rows.length) ∧ l.Nodup) ∧
    (∀ t c a l, check_value_list t c a = Except.ok l →
      (∀ i ∈ l, i < t.rows.length) ∧ l.Nodup) ∧
    (∀ today t c l, check_date today t c = Except.ok l →
      (∀ i ∈ l, i < t.rows.length) ∧ l.Nodup) ∧
    (∀ t c lo hi l, check_numeric t c lo hi = Except.ok l →
      (∀ i ∈ l, i < t.rows.length) ∧ l.Nodup) ∧
    (∀ t cs l, check_duplicate t cs = Except.ok l →
      (∀ i ∈ l, i < t.rows.length) ∧ l.Nodup) ∧
    (∀ t ref c l, check_registration_match t ref c = Except.ok l →
      (∀ i ∈ l, i < t.rows.length) ∧ l.Nodup) ∧
    (∀ t ref c rc l, check_service_point t ref c rc = Except.ok l →
      (∀ i ∈ l, i < t.rows.length) ∧ l.Nodup) := by
  have hfi : ∀ n p, (∀ i ∈ filterIdx n p, i < n) ∧ (filterIdx n p).Nodup :=
    fun n p => ⟨fun i hi => ((mem_filterIdx n p i).mp hi).1, filterIdx_nodup n p⟩
  refine ⟨?_, ?_, ?_, ?_, ?_, ?_, ?_, ?_, ?_⟩
  · intro t d sc tc l h
    unfold check_township at h
    split at h
    · rw [Except.ok.injEq] at h; subst h; exact ⟨by simp, List.nodup_nil⟩
    · split at h
      · rw [Except.ok.injEq] at h; subst h; exact hfi _ _
      · cases h
  · exact fun t nc sc l h => check_sex_prefix_wellformed t nc sc l h
  · intro t d c l h
    unfold check_state_region at h
    split at h
    · rw [Except.ok.injEq] at h; subst h; exact hfi _ _
    · cases h
  · intro t c a l h
    unfold check_value_list at h
    split at h
    · rw [Except.ok.injEq] at h; subst h; exact hfi _ _
    · cases h
  · intro today t c l h
    unfold check_date at h
    split at h
    · rw [Except.ok.injEq] at h; subst h; exact hfi _ _
    · cases h
  · intro t c lo hi l h
    unfold check_numeric at h
    split at h
    · rw [Except.ok.injEq] at h; subst h; exact hfi _ _
    · cases h
  · intro t cs l h
    unfold check_duplicate at h
    split at h
    · rw [Except.ok.injEq] at h; subst h; exact hfi _ _
    · cases h
  · intro t ref c l h
    unfold check_registration_match at h
    split at h
    · split at h
      · rw [Except.ok.injEq] at h; subst h; exact hfi _ _
      · cases h
    · cases h
  · intro t ref c rc l h
    unfold check_service_point at h
    split at h
    · split at h
      · rw [Except.ok.injEq] at h; subst h; exact hfi _ _
      · cases h
    · cases h

/-- Witness for C9 at two concrete validators: the township check on the
sample table and the naming-convention check on the missing-sex sample. -/
theorem violation_sets_wellformed_witness :
    ((∀ i ∈ ([1, 2] : List Nat), i < c6T.rows.length) ∧
      ([1, 2] : List Nat).Nodup) ∧
    ((∀ i ∈ ([0] : List Nat), i < c10T.rows.length) ∧
      ([0] : List Nat).Nodup) :=
  ⟨violation_sets_wellformed.1 c6T c6Cat "st" "tw" [1, 2] (by decide),
   violation_sets_wellformed.2.1 c10T "Name" "Sex" [0] (by decide)⟩

/-- C10: in the naming-convention check a missing sex cell never satisfies a
gendered prefix — `str(nan)` is `"nan"`, which (like the empty string)
matches neither accepted sex spelling, so a record whose name starts with a
gendered honorific and whose sex cell is missing or empty is flagged. -/
theorem missing_sex_flagged (t : Table) (nc sc : String) (l : List Nat)
    (h : check_sex_prefix t nc sc = Except.ok l) (i : Nat) (r : Row)
    (hr : t.rows.get? i = some r) (tok : String)
    (htok : (wsTokens (pyStr (cellv r nc))).head? = some tok)
    (hgen : tok ∈ femaleP ∨ tok ∈ maleP)
    (hsex : cellv r sc = Val.na ∨ cellv r sc = Val.str "") :
    i ∈ l := by
  have hmem : (i, r) ∈ t.rows.enum := by
    have he := List.enum_get? t.rows i
    rw [hr] at he
    exact List.get?_mem he
  obtain ⟨fm, hfm, himp⟩ := sexLoop_flag_mem t.cols nc sc t.rows.enum l h i r hmem
  unfold sexRowFlags at hfm
  cases hnv : rowGet t.cols r nc with
  | error e => rw [hnv] at hfm; simp at hfm
  | ok nv =>
    rw [hnv] at hfm
    cases hsv : rowGet t.cols r sc with
    | error e => rw [hsv] at hfm; simp at hfm
    | ok sv =>
      rw [hsv] at hfm
      have hnveq : nv = cellv r nc := by
        unfold rowGet at hnv
        split at hnv
        · rw [Except.ok.injEq] at hnv; exact hnv.symm
        · cases hnv
      have hsveq : sv = cellv r sc := by
        unfold rowGet at hsv
        split at hsv
        · rw [Except.ok.injEq] at hsv; exact hsv.symm
        · cases hsv
      subst hnveq
      subst hsveq
      have hname : ¬ (pyStr (cellv r nc) = "") := by
        intro hn
        rw [hn] at htok
        rw [show wsTokens "" = [] from rfl] at htok
        simp at htok
      simp only [] at hfm
      rw [if_neg hname, htok] at hfm
      simp only [] at hfm
      rw [Except.ok.injEq] at hfm
      subst hfm
      rcases hsex with hna | hemp
      · rcases hgen with hgf | hgm
        · exact himp (Or.inl (by rw [hna]; exact decide_eq_true ⟨hgf, by decide⟩))
        · exact himp (Or.inr (by rw [hna]; exact decide_eq_true ⟨hgm, by decide⟩))
      · rcases hgen with hgf | hgm
        · exact himp (Or.inl (by rw [hemp]; exact decide_eq_true ⟨hgf, by decide⟩))
        · exact himp (Or.inr (by rw [hemp]; exact decide_eq_true ⟨hgm, by decide⟩))

/-- Witness for C10: a record named "Ma Aye" with a missing sex cell is
flagged by the naming-convention check. -/
theorem missing_sex_flagged_witness : 0 ∈ ([0] : List Nat) :=
  missing_sex_flagged c10T "Name" "Sex" [0] (by decide) 0
    [("Name", Val.str "Ma Aye")] (by decide) "Ma" (by decide)
    (Or.inl (by decide)) (Or.inl (by decide))

/-- C1 counterexample: with one rule unable to execute (its column is
absent), `check_rules` does not run and report the remaining rules — the
whole run aborts with the raised `KeyError` and no rule results at all. -/
theorem check_rules_aborts_cex :
    check_rules 20251012 c1Input = Except.error (keyErr "State / Region") := by
  rfl

/-- C1 (amended): failure of one rule aborts the whole run — there is no
per-rule error capture in `check_rules`, so a missing referenced column
(here `State / Region` on the Screening sheet, used by the first rule)
makes the whole runner raise instead of reporting the other rules. -/
theorem check_rules_missing_column_aborts (today : Nat) (inp : CheckInput)
    (h : "State / Region" ∉ inp.screening.cols) :
    check_rules today inp = Except.error (keyErr "State / Region") := by
  have h1 : check_state_region inp.screening
      (load_dropdowns inp.dropdown).1 "State / Region" =
      Except.error (keyErr "State / Region") := by
    unfold check_state_region
    rw [if_neg h]
  unfold check_rules
  rw [h1]
  rfl

/-- Witness for C1 (amended) at a concrete input and date. -/
theorem check_rules_missing_column_aborts_witness :
    check_rules 20250101 c1Input = Except.error (keyErr "State / Region") :=
  check_rules_missing_column_aborts 20250101 c1Input (by decide)

/-- C2 counterexample: the derived-column phase succeeds on the sample run,
yet afterwards the caller's Screening and Patient objects no longer hold
their original tables — the computed columns were appended in place, not on
private copies. -/
theorem pipeline_mutates_cex :
    (pipelineFinalState c2Tables).toOption.isSome = true ∧
    (pipelineFinalState c2Tables).toOption.map Tables.screening ≠
      some c2Tables.screening ∧
    (pipelineFinalState c2Tables).toOption.map Tables.patient ≠
      some c2Tables.patient := by
  decide

/-- C2 (amended): the derived-column phase of `check_rules` never touches
the Service Point and Visit tables, but it appends the computed columns in
place: after a successful run the caller's Screening object holds the
enriched Screening table returned by `add_computed_columns_screening`, and
the caller's Patient object holds the caller-view component of
`add_computed_columns_patient` (the in-place prefix of its derivations). -/
theorem pipeline_frame_effects (s s' : Tables)
    (h : pipelineFinalState s = Except.ok s') :
    s'.service = s.service ∧ s'.visit = s.visit ∧
    add_computed_columns_screening s.screening s.patient =
      Except.ok s'.screening ∧
    ∃ pr, add_computed_columns_patient s.patient s'.screening =
      Except.ok pr ∧ s'.patient = pr.2 := by
  unfold pipelineFinalState at h
  split at h
  · cases h
  · rename_i scr hscr
    split at h
    · cases h
    · rename_i pr hpr
      rw [Except.ok.injEq] at h
      subst h
      exact ⟨rfl, rfl, hscr, pr, hpr, rfl⟩

/-- Witness for C2 (amended) at the sample run. -/
theorem pipeline_frame_effects_witness :
    (pipelineFinalState c2Tables).toOption.map Tables.service =
      some c2Tables.service ∧
    (pipelineFinalState c2Tables).toOption.map Tables.visit =
      some c2Tables.visit := by
  obtain ⟨s', hs'⟩ : ∃ s', pipelineFinalState c2Tables = Except.ok s' :=
    ⟨_, rfl⟩
  have hfe := pipeline_frame_effects c2Tables s' hs'
  rw [hs']
  refine ⟨?_, ?_⟩
  · show some s'.service = some c2Tables.service
    rw [hfe.1]
  · show some s'.visit = some c2Tables.visit
    rw [hfe.2.1]

theorem rows_length_screenT4 (df : Table) :
    (screenT4 df).rows.length = df.rows.length := by
  simp [screenT4, rows_length_setColMap]

theorem rows_length_screenT5 (df : Table) :
    (screenT5 df).rows.length = df.rows.length := by
  simp [screenT5, rows_length_setColMap, rows_length_screenT4]

theorem cellIdx_screenT5_orig (df : Table) (c : String) (i : Nat)
    (h1 : c ≠ "Presumptive TB referred") (h2 : c ≠ "TB Detected")
    (h3 : c ≠ "Bact confirmed TB") (h4 : c ≠ "Result check")
    (h5 : c ≠ "Duplicate check") :
    cellIdx (screenT5 df) c i = cellIdx df c i := by
  unfold screenT5 screenT4
  rw [cellIdx_setColMap_ne _ _ _ _ _ h5, cellIdx_setColMap_ne _ _ _ _ _ h4,
    cellIdx_setColMap_ne _ _ _ _ _ h3, cellIdx_setColMap_ne _ _ _ _ _ h2,
    cellIdx_setColMap_ne _ _ _ _ _ h1]

theorem cellv_setCell3_ne (r : Row) (v1 v2 v3 : Val) (c : String)
    (h1 : c ≠ "Presumptive TB referred") (h2 : c ≠ "TB Detected")
    (h3 : c ≠ "Bact confirmed TB") :
    cellv (setCell (setCell (setCell r "Presumptive TB referred" v1)
      "TB Detected" v2) "Bact confirmed TB" v3) c = cellv r c := by
  rw [cellv_setCell_ne _ _ _ _ h3, cellv_setCell_ne _ _ _ _ h2,
    cellv_setCell_ne _ _ _ _ h1]

theorem cellIdx_screenT5_presumptive (df : Table) (i : Nat) (r : Row)
    (hr : df.rows.get? i = some r) :
    cellIdx (screenT5 df) "Presumptive TB referred" i = presumptiveF r := by
  unfold screenT5 screenT4
  rw [cellIdx_setColMap_ne _ _ _ _ _ (by decide),
    cellIdx_setColMap_ne _ _ _ _ _ (by decide),
    cellIdx_setColMap_ne _ _ _ _ _ (by decide),
    cellIdx_setColMap_ne _ _ _ _ _ (by decide),
    cellIdx_setColMap_self, hr]
  rfl

theorem cellIdx_screenT5_tbdetected (df : Table) (i : Nat) (r : Row)
    (hr : df.rows.get? i = some r) :
    cellIdx (screenT5 df) "TB Detected" i =
      boolInt (decide (cellv r "Result" ∈ tbResults ∧
        presumptiveF r = Val.num 1)) := by
  unfold screenT5 screenT4
  rw [cellIdx_setColMap_ne _ _ _ _ _ (by decide),
    cellIdx_setColMap_ne _ _ _ _ _ (by decide),
    cellIdx_setColMap_ne _ _ _ _ _ (by decide),
    cellIdx_setColMap_self, rows_get?_setColMap, hr]
  simp only [Option.map_some', Option.getD_some]
  unfold tbDetectedF
  rw [cellv_setCell_ne _ _ _ _ (by decide), cellv_setCell_self]

theorem cellIdx_screenT5_bact (df : Table) (i : Nat) (r : Row)
    (hr : df.rows.get? i = some r) :
    cellIdx (screenT5 df) "Bact confirmed TB" i =
      boolInt (decide (cellv r "Result" = Val.str "Bact confirmed TB" ∧
        presumptiveF r = Val.num 1)) := by
  unfold screenT5 screenT4
  rw [cellIdx_setColMap_ne _ _ _ _ _ (by decide),
    cellIdx_setColMap_ne _ _ _ _ _ (by decide),
    cellIdx_setColMap_self, rows_get?_setColMap, rows_get?_setColMap, hr]
  simp only [Option.map_some', Option.getD_some]
  unfold bactF
  rw [cellv_setCell_ne _ _ _ _ (by decide),
    cellv_setCell_ne _ _ _ _ (by decide),
    cellv_setCell_ne _ _ _ _ (by decide), cellv_setCell_self]

theorem cellIdx_screenT5_resultcheck (df : Table) (i : Nat) (r : Row)
    (hr : df.rows.get? i = some r) :
    cellIdx (screenT5 df) "Result check" i = result_check r := by
  unfold screenT5 screenT4
  rw [cellIdx_setColMap_ne _ _ _ _ _ (by decide),
    cellIdx_setColMap_self, rows_get?_setColMap, rows_get?_setColMap,
    rows_get?_setColMap, hr]
  simp only [Option.map_some', Option.getD_some]
  unfold result_check
  rw [cellv_setCell3_ne _ _ _ _ _ (by decide) (by decide) (by decide),
    cellv_setCell3_ne _ _ _ _ _ (by decide) (by decide) (by decide),
    cellv_setCell3_ne _ _ _ _ _ (by decide) (by decide) (by decide),
    cellv_setCell3_ne _ _ _ _ _ (by decide) (by decide) (by decide)]

/-- C8: a Screening record with a positive sputum examination and
`Result = "Bact confirmed TB"` is derived as presumptively referred,
detected, bacteriologically confirmed, and failing the result check. -/
theorem screening_end_to_end (df pat t : Table)
    (h : add_computed_columns_screening df pat = Except.ok t)
    (i : Nat) (r : Row) (hr : df.rows.get? i = some r)
    (hsp : cellv r "Examination results_Sputum" = Val.str "Positive")
    (hres : cellv r "Result" = Val.str "Bact confirmed TB") :
    cellIdx t "Presumptive TB referred" i = Val.num 1 ∧
    cellIdx t "TB Detected" i = Val.num 1 ∧
    cellIdx t "Bact confirmed TB" i = Val.num 1 ∧
    cellIdx t "Result check" i = Val.str "F" := by
  have hcore : ∀ c, c ≠ "Ongoing TB case check" →
      cellIdx t c i = cellIdx (screenT5 df) c i := by
    unfold add_computed_columns_screening at h
    split at h
    · split at h
      · split at h
        · rw [Except.ok.injEq] at h
          subst h
          intro c hc
          exact cellIdx_setColMap_ne _ _ _ _ _ hc
        · split at h
          · split at h
            · cases h
            · rw [Except.ok.injEq] at h
              subst h
              intro c hc
              exact cellIdx_setColVals_ne _ _ _ _ _ hc
          · cases h
      · cases h
    · cases h
  have hPTR : presumptiveF r = Val.num 1 := by
    unfold presumptiveF
    rw [decide_eq_true (Or.inl ⟨"Examination results_Sputum", by decide,
      by rw [hsp]; simp⟩)]
    rfl
  refine ⟨?_, ?_, ?_, ?_⟩
  · rw [hcore _ (by decide), cellIdx_screenT5_presumptive df i r hr, hPTR]
  · rw [hcore _ (by decide), cellIdx_screenT5_tbdetected df i r hr,
      decide_eq_true ⟨by rw [hres]; decide, hPTR⟩]
    rfl
  · rw [hcore _ (by decide), cellIdx_screenT5_bact df i r hr,
      decide_eq_true ⟨hres, hPTR⟩]
    rfl
  · rw [hcore _ (by decide), cellIdx_screenT5_resultcheck df i r hr]
    unfold result_check
    rw [if_pos (Or.inl hsp), if_pos hres]

/-- Witness for C8 at the sample Screening record. -/
theorem screening_end_to_end_witness :
    cellIdx c8T "Presumptive TB referred" 0 = Val.num 1 ∧
    cellIdx c8T "TB Detected" 0 = Val.num 1 ∧
    cellIdx c8T "Bact confirmed TB" 0 = Val.num 1 ∧
    cellIdx c8T "Result check" 0 = Val.str "F" :=
  screening_end_to_end c2Scr c2Pat c8T (by rfl) 0 _ rfl (by decide) (by decide)

theorem nodup_filter_len_le_one (rows : List Row) (k : Val)
    (hnd : (rows.map (fun p => cellv p "Registration number")).Nodup) :
    (rows.filter
      (fun p => decide (cellv p "Registration number" = k))).length ≤ 1 := by
  induction rows with
  | nil => simp
  | cons a tl ih =>
    rw [List.map_cons, List.nodup_cons] at hnd
    obtain ⟨hna, hndt⟩ := hnd
    rw [List.filter_cons]
    by_cases ha : cellv a "Registration number" = k
    · rw [if_pos (by simpa using ha)]
      have hemp : tl.filter
          (fun p => decide (cellv p "Registration number" = k)) = [] := by
        rw [List.filter_eq_nil_iff]
        intro p hp
        simp only [decide_eq_true_eq]
        intro hpk
        exact hna (List.mem_map.mpr ⟨p, hp, by rw [hpk, ha]⟩)
      simp [hemp]
    · rw [if_neg (by simpa using ha)]
      exact ih hndt

theorem mergeEnrolled_eq_map (t pat : Table)
    (hnd : (pat.rows.map (fun p => cellv p "Registration number")).Nodup) :
    mergeEnrolled t pat =
      t.rows.map (fun r => (r, edOfKey pat (cellv r "Registration number"))) := by
  unfold mergeEnrolled
  generalize t.rows = rows
  induction rows with
  | nil => simp
  | cons a tl ih =>
    rw [List.flatMap_cons, ih, List.map_cons]
    congr 1
    cases hflt : pat.rows.filter (fun p =>
        decide (cellv p "Registration number" =
          cellv a "Registration number")) with
    | nil => simp [edOfKey, hflt]
    | cons p0 rest =>
      have hle := nodup_filter_len_le_one pat.rows
        (cellv a "Registration number") hnd
      rw [hflt] at hle
      have hrest : rest = [] := by
        simp only [List.length_cons] at hle
        exact List.length_eq_zero.mp (by omega)
      subst hrest
      simp [edOfKey, hflt]

/-- C4 (amended): provided registration numbers are unique in the Patient
table (the source's declared assumption), `OngoingTBCaseCheck` is
"Ongoing TB case" exactly when the matching Patient record exists, has a
non-missing enrollment date, and the screening date parses strictly after
it; with an empty Patient table, and in every other case, the value is the
empty string. -/
theorem ongoing_tb_case_check (df pat t : Table)
    (h : add_computed_columns_screening df pat = Except.ok t)
    (hnd : (pat.rows.map (fun p => cellv p "Registration number")).Nodup)
    (i : Nat) (r : Row) (hr : df.rows.get? i = some r) :
    (pat.rows = [] → cellIdx t "Ongoing TB case check" i = Val.str "") ∧
    (pat.rows ≠ [] →
      ((cellIdx t "Ongoing TB case check" i = Val.str "Ongoing TB case" ↔
        ∃ p ∈ pat.rows,
          cellv p "Registration number" = cellv r "Registration number" ∧
          cellv p "Enrolled Date" ≠ Val.na ∧
          dateAfter (cellv r "Screening Date")
            (cellv p "Enrolled Date") = true) ∧
       (cellIdx t "Ongoing TB case check" i = Val.str "Ongoing TB case" ∨
        cellIdx t "Ongoing TB case check" i = Val.str ""))) := by
  obtain ⟨hlen, -⟩ := List.get?_eq_some.mp hr
  have hlen5 : i < (screenT5 df).rows.length := by
    rw [rows_length_screenT5]
    exact hlen
  obtain ⟨r5, hr5⟩ : ∃ r5, (screenT5 df).rows.get? i = some r5 := by
    cases hg : (screenT5 df).rows.get? i with
    | none => exact absurd (List.get?_eq_none.mp hg) (by omega)
    | some r5 => exact ⟨r5, rfl⟩
  have hSD : cellv r5 "Screening Date" = cellv r "Screening Date" := by
    have h1 := cellIdx_screenT5_orig df "Screening Date" i (by decide)
      (by decide) (by decide) (by decide) (by decide)
    unfold cellIdx at h1
    rw [hr5, hr] at h1
    exact h1
  have hRG : cellv r5 "Registration number" = cellv r "Registration number" := by
    have h1 := cellIdx_screenT5_orig df "Registration number" i (by decide)
      (by decide) (by decide) (by decide) (by decide)
    unfold cellIdx at h1
    rw [hr5, hr] at h1
    exact h1
  unfold add_computed_columns_screening at h
  split at h
  · split at h
    · split at h
      · rename_i hpat
        rw [Except.ok.injEq] at h
        subst h
        refine ⟨fun _ => ?_, fun hne => absurd hpat hne⟩
        rw [cellIdx_setColMap_self, hr5]
        rfl
      · rename_i hpat
        split at h
        · split at h
          · cases h
          · rw [Except.ok.injEq] at h
            subst h
            refine ⟨fun hp => absurd hp hpat, fun _ => ?_⟩
            have hval : cellIdx (setColVals (screenT5 df)
                "Ongoing TB case check"
                ((mergeEnrolled (screenT5 df) pat).map ongoingFlag))
                "Ongoing TB case check" i =
                ongoingFlag (r5, edOfKey pat
                  (cellv r5 "Registration number")) := by
              rw [cellIdx_setColVals_self _ _ _ _ hlen5,
                mergeEnrolled_eq_map _ _ hnd, List.map_map, List.get?_map,
                hr5]
              rfl
            rw [hval, hRG]
            simp only [ongoingFlag]
            rw [hSD]
            cases hflt : pat.rows.filter (fun p =>
                decide (cellv p "Registration number" =
                  cellv r "Registration number")) with
            | nil =>
              have hed : edOfKey pat (cellv r "Registration number") =
                  Val.na := by
                unfold edOfKey
                rw [hflt]
                rfl
              rw [hed]
              constructor
              · constructor
                · intro hcon
                  rw [if_neg (by simp)] at hcon
                  exact absurd hcon (by decide)
                · rintro ⟨p, hp, hpr, -, -⟩
                  exfalso
                  have hmem : p ∈ pat.rows.filter (fun p =>
                      decide (cellv p "Registration number" =
                        cellv r "Registration number")) :=
                    List.mem_filter.mpr ⟨hp, decide_eq_true hpr⟩
                  rw [hflt] at hmem
                  simp at hmem
              · right
                rw [if_neg (by simp)]
            | cons p0 rest =>
              have hle := nodup_filter_len_le_one pat.rows
                (cellv r "Registration number") hnd
              rw [hflt] at hle
              have hrest : rest = [] := by
                simp only [List.length_cons] at hle
                exact List.length_eq_zero.mp (by omega)
              subst hrest
              have hed : edOfKey pat (cellv r "Registration number") =
                  cellv p0 "Enrolled Date" := by
                unfold edOfKey
                rw [hflt]
                rfl
              rw [hed]
              have hp0f : p0 ∈ pat.rows.filter (fun p =>
                  decide (cellv p "Registration number" =
                    cellv r "Registration number")) := by
                rw [hflt]
                exact List.mem_singleton.mpr rfl
              have hp0mem : p0 ∈ pat.rows := (List.mem_filter.mp hp0f).1
              have hp0reg : cellv p0 "Registration number" =
                  cellv r "Registration number" :=
                of_decide_eq_true (List.mem_filter.mp hp0f).2
              constructor
              · constructor
                · intro hcon
                  by_cases hc : dateAfter (cellv r "Screening Date")
                      (cellv p0 "Enrolled Date") = true ∧
                      cellv p0 "Enrolled Date" ≠ Val.na
                  · exact ⟨p0, hp0mem, hp0reg, hc.2, hc.1⟩
                  · rw [if_neg hc] at hcon
                    exact absurd hcon (by decide)
                · rintro ⟨q, hq, hqr, hqe, hqd⟩
                  have hqf : q ∈ pat.rows.filter (fun p =>
                      decide (cellv p "Registration number" =
                        cellv r "Registration number")) :=
                    List.mem_filter.mpr ⟨hq, decide_eq_true hqr⟩
                  rw [hflt] at hqf
                  have hqp : q = p0 := List.mem_singleton.mp hqf
                  subst hqp
                  rw [if_pos ⟨hqd, hqe⟩]
              · by_cases hc : dateAfter (cellv r "Screening Date")
                    (cellv p0 "Enrolled Date") = true ∧
                    cellv p0 "Enrolled Date" ≠ Val.na
                · left
                  rw [if_pos hc]
                · right
                  rw [if_neg hc]
        · cases h
    · cases h
  · cases h

/-- C4 counterexample: with two Patient records sharing the registration
number — the first with a missing enrollment date, the second with a valid
earlier one — a matching Patient record with a non-missing enrollment date
strictly before the screening date exists, yet the computed value is the
empty string: the code keeps only the first match for each screening
record, so the claim's "a Patient record matches" reading fails. -/
theorem ongoing_tb_case_check_cex :
    (add_computed_columns_screening c4Scr c4Pat).toOption.map
      (fun t => cellIdx t "Ongoing TB case check" 0) = some (Val.str "") ∧
    (∃ p ∈ c4Pat.rows,
      cellv p "Registration number" = cellIdx c4Scr "Registration number" 0 ∧
      cellv p "Enrolled Date" ≠ Val.na ∧
      dateAfter (cellIdx c4Scr "Screening Date" 0)
        (cellv p "Enrolled Date") = true) := by
  decide

/-- Witness for C4 (amended): with a unique matching Patient record enrolled
before the screening date, the record is marked "Ongoing TB case". -/
theorem ongoing_tb_case_check_witness :
    cellIdx c4wT "Ongoing TB case check" 0 = Val.str "Ongoing TB case" := by
  have h : add_computed_columns_screening c4Scr c4wPat = Except.ok c4wT := by
    rfl
  have ht := ongoing_tb_case_check c4Scr c4wPat c4wT h (by decide) 0 _ rfl
  refine ((ht.2 (by decide)).1).mpr ?_
  exact ⟨[("Registration number", Val.str "R1"),
          ("Enrolled Date", Val.str "2024-01-01")],
    by decide, by decide, by decide, by decide⟩
